import Mathlib

/-!
Verification of the share-link subsystem of GoManagerApi.

The definitions below are a shallow embedding of the Go source:
  - internal/domain/share/entity.go        (Share, IsExpired, HasReachedMaxDownloads, IsValid, ToResponse)
  - internal/infrastructure/repository/share_repository.go
      (Create, GetByID, GetByToken, Delete, IncrementDownloads over an SQL table,
       embedded here as a list of rows with the UNIQUE(id)/UNIQUE(token) constraints
       of the shares table in internal/infrastructure/database)
  - internal/delivery/http/handler/share_handler.go
      (CreateShare, AccessShare, DeleteShare, GetShareInfo)
The file-storage collaborator (application/file Service: ListFiles,
GetFileForDownload) is modelled abstractly, per its contract: ListFiles
succeeds exactly on directories, GetFileForDownload exactly on files.
Wall-clock instants are embedded as integers; Go time.Time.After is strict
integer comparison.
-/

namespace GoManager

/-- ShareType from entity.go: public | password. -/
inductive ShareType where
  | public
  | password
deriving DecidableEq, Repr

/-- Permission from entity.go: view | download. -/
inductive Permission where
  | view
  | download
deriving DecidableEq, Repr

/-- Share entity from internal/domain/share/entity.go.  Timestamps are
embedded as integers; ExpiresAt and MaxDownloads are nullable in Go
(pointer fields), hence Option here.  Downloads is a Go int, hence Int. -/
structure Share where
  id : String
  token : String
  path : String
  createdBy : String
  shareType : ShareType
  password : String
  permission : Permission
  expiresAt : Option Int
  maxDownloads : Option Int
  downloads : Int
  createdAt : Int
  isActive : Bool
deriving DecidableEq, Repr

/-- IsExpired from entity.go: false when ExpiresAt is nil, otherwise
time.Now().After(*s.ExpiresAt), i.e. strictly after. -/
def Share.IsExpired (s : Share) (now : Int) : Bool :=
  match s.expiresAt with
  | none => false
  | some t => now > t

/-- HasReachedMaxDownloads from entity.go: false when MaxDownloads is nil,
otherwise Downloads >= *MaxDownloads. -/
def Share.HasReachedMaxDownloads (s : Share) : Bool :=
  match s.maxDownloads with
  | none => false
  | some m => s.downloads ≥ m

/-- IsValid from entity.go: IsActive && !IsExpired() && !HasReachedMaxDownloads(). -/
def Share.IsValid (s : Share) (now : Int) : Bool :=
  s.isActive && !(s.IsExpired now) && !s.HasReachedMaxDownloads

/-- ShareResponse from entity.go: the safe API representation.  It has no
password field at all. -/
structure ShareResponse where
  id : String
  token : String
  path : String
  shareType : ShareType
  permission : Permission
  expiresAt : Option Int
  maxDownloads : Option Int
  downloads : Int
  createdAt : Int
  isActive : Bool
  url : String
deriving DecidableEq, Repr

/-- ToResponse from entity.go: copies the public fields and derives
URL = baseURL + "/s/" + Token. -/
def Share.ToResponse (s : Share) (baseURL : String) : ShareResponse :=
  { id := s.id
    token := s.token
    path := s.path
    shareType := s.shareType
    permission := s.permission
    expiresAt := s.expiresAt
    maxDownloads := s.maxDownloads
    downloads := s.downloads
    createdAt := s.createdAt
    isActive := s.isActive
    url := baseURL ++ "/s/" ++ s.token }

/-- CreateShareRequest from entity.go.  ShareType and Permission are empty
strings in Go when omitted; the two-variant enums with an Option capture
exactly that. -/
structure CreateShareRequest where
  path : String
  shareType : Option ShareType
  password : String
  permission : Option Permission
  expiresAt : Option Int
  maxDownloads : Option Int
deriving DecidableEq, Repr

/-! ### Share store (share_repository.go over the shares table) -/

/-- Decidable equality for repository results, used to evaluate the
embedding on concrete inputs. -/
instance instDecEqExcept {ε α : Type} [DecidableEq ε] [DecidableEq α] :
    DecidableEq (Except ε α) := fun a b =>
  match a, b with
  | .error e, .error f =>
    if h : e = f then .isTrue (congrArg Except.error h)
    else .isFalse (fun hh => h (by cases hh; rfl))
  | .error _, .ok _ => .isFalse (fun hh => Except.noConfusion hh)
  | .ok _, .error _ => .isFalse (fun hh => Except.noConfusion hh)
  | .ok x, .ok y =>
    if h : x = y then .isTrue (congrArg Except.ok h)
    else .isFalse (fun hh => h (by cases hh; rfl))

/-- Errors produced by the repository layer.  ErrShareNotFound is from
domain/share/errors.go; uniqueViolation stands for the SQL error raised by
the UNIQUE constraints on shares.id and shares.token. -/
inductive RepoError where
  | notFound
  | uniqueViolation
deriving DecidableEq, Repr

/-- The shares table: a list of rows.  The schema declares
id TEXT PRIMARY KEY and token TEXT UNIQUE NOT NULL. -/
structure DB where
  shares : List Share
deriving DecidableEq, Repr

/-- Create from share_repository.go: assigns a fresh uuid to ID when ID is
empty, unconditionally overwrites CreatedAt with time.Now(), then INSERTs
the row.  The token field is left exactly as the caller supplied it.  The
INSERT fails when a row with the same id or the same token already exists
(PRIMARY KEY / UNIQUE constraints). -/
def DB.Create (db : DB) (s : Share) (freshId : String) (now : Int) :
    Except RepoError (DB × Share) :=
  let s1 := if s.id = "" then { s with id := freshId } else s
  let s2 := { s1 with createdAt := now }
  if db.shares.any (fun r => r.id = s2.id || r.token = s2.token) then
    .error .uniqueViolation
  else
    .ok ({ shares := db.shares ++ [s2] }, s2)

/-- GetByID from share_repository.go: SELECT ... WHERE id = ?, returning
ErrShareNotFound when no row matches. -/
def DB.GetByID (db : DB) (id : String) : Except RepoError Share :=
  match db.shares.find? (fun r => r.id = id) with
  | some r => .ok r
  | none => .error .notFound

/-- GetByToken from share_repository.go: SELECT ... WHERE token = ?,
returning ErrShareNotFound when no row matches. -/
def DB.GetByToken (db : DB) (token : String) : Except RepoError Share :=
  match db.shares.find? (fun r => r.token = token) with
  | some r => .ok r
  | none => .error .notFound

/-- Delete from share_repository.go: DELETE ... WHERE id = ?, returning
ErrShareNotFound when no row was affected. -/
def DB.Delete (db : DB) (id : String) : Except RepoError DB :=
  if db.shares.any (fun r => r.id = id) then
    .ok { shares := db.shares.filter (fun r => r.id ≠ id) }
  else
    .error .notFound

/-- IncrementDownloads from share_repository.go: the single statement
UPDATE shares SET downloads = downloads + 1 WHERE id = ?.  The update is
unconditional: no comparison against max_downloads appears in the WHERE
clause.  It returns ErrShareNotFound when no row was affected. -/
def DB.IncrementDownloads (db : DB) (id : String) : Except RepoError DB :=
  if db.shares.any (fun r => r.id = id) then
    .ok { shares := db.shares.map
            (fun r => if r.id = id then { r with downloads := r.downloads + 1 } else r) }
  else
    .error .notFound

/-- Downloads counter of the row with the given id, when present. -/
def DB.downloadsOf (db : DB) (id : String) : Option Int :=
  (db.shares.find? (fun r => r.id = id)).map (fun r => r.downloads)

/-! ### File-storage collaborator (application/file Service) -/

/-- A node of the storage tree: a plain file, or a directory with its
listing entries. -/
inductive FSNode where
  | file
  | dir (entries : List String)
deriving DecidableEq, Repr

/-- Abstract file-storage backend: each path is a file, a directory, or
absent.  ListFiles succeeds exactly on directories (returning the entries)
and GetFileForDownload succeeds exactly on files, per the collaborator
contract. -/
abbrev FS := String → Option FSNode

/-- A call made by the handler to the file-storage collaborator, recorded
in order. -/
inductive FSCall where
  | listFiles (path : String)
  | getFileForDownload (path : String)
deriving DecidableEq, Repr

/-! ### HTTP handler layer (share_handler.go) -/

/-- HTTP method, restricted to the two methods AccessShare accepts. -/
inductive Method where
  | get
  | post
deriving DecidableEq, Repr

/-- Terminal outcome of AccessShare.  Strings are the messages the Go
handler sends; fileServed carries the filename put into the
Content-Disposition header; listing carries the payload of the final
SendSuccess (path, permission, files), where files is nil (none) when the
ListFiles call had failed. -/
inductive AccessOutcome where
  | badRequest (msg : String)
  | notFound (msg : String)
  | gone (msg : String)
  | unauthorized (msg : String)
  | passwordRequired (path : String)
  | fileServed (filename : String)
  | listing (path : String) (permission : Permission) (files : Option (List String))
deriving DecidableEq, Repr

/-- Embedding of the Go call strings.TrimPrefix(path, "/") used for the
Content-Disposition filename: removes one leading slash when present. -/
def trimLeadingSlash (p : String) : String :=
  match p.data with
  | '/' :: rest => String.mk rest
  | _ => p

/-- Gate phase of AccessShare (share_handler.go lines 177-237): empty
token check, GetByToken lookup, the three liveness checks in order
(IsActive, IsExpired, HasReachedMaxDownloads), then the password gate for
password-type shares (GET returns the password-required marker; POST
decodes the body — none models a decode failure — and compares the
submitted password with the stored one by string inequality).  Returns the
share snapshot when every gate passes. -/
def AccessGates (db : DB) (method : Method) (token : String)
    (submitted : Option String) (now : Int) : Except AccessOutcome Share :=
  if token = "" then .error (.badRequest "Share token is required")
  else
    match db.GetByToken token with
    | .error _ => .error (.notFound "Share not found")
    | .ok s =>
      if s.isActive = false then .error (.gone "Share is no longer active")
      else if s.IsExpired now then .error (.gone "Share has expired")
      else if s.HasReachedMaxDownloads then .error (.gone "Maximum downloads reached")
      else if s.shareType = .password then
        match method with
        | .get => .error (.passwordRequired s.path)
        | .post =>
          match submitted with
          | none => .error (.badRequest "Invalid request body")
          | some p => if p ≠ s.password then .error (.unauthorized "Invalid password") else .ok s
      else .ok s

/-- IncrementDownloads as the handler uses it (share_handler.go line 250):
the returned error is discarded, so a failed update leaves the table as it
was. -/
def DB.incrementIgnoringError (db : DB) (id : String) : DB :=
  match db.IncrementDownloads id with
  | .ok db2 => db2
  | .error _ => db

/-- Delivery phase of AccessShare (share_handler.go lines 239-266),
evaluated on the share snapshot taken by the gate phase.  The handler
calls ListFiles first; only when that fails does it call
GetFileForDownload; if that also fails it answers NotFound.  On a file it
increments the downloads counter, then serves the bytes when permission is
download — with Content-Disposition filename strings.TrimPrefix(path, "/")
— and otherwise falls through to the listing response with files = nil.
On a directory it answers with the listing and never touches the counter.
The trace of collaborator calls is returned alongside. -/
def Deliver (db : DB) (fs : FS) (s : Share) : AccessOutcome × DB × List FSCall :=
  match fs s.path with
  | some (.dir entries) =>
      (.listing s.path s.permission (some entries), db, [.listFiles s.path])
  | some .file =>
      let db2 := db.incrementIgnoringError s.id
      if s.permission = .download then
        (.fileServed (trimLeadingSlash s.path), db2,
          [.listFiles s.path, .getFileForDownload s.path])
      else
        (.listing s.path s.permission none, db2,
          [.listFiles s.path, .getFileForDownload s.path])
  | none =>
      (.notFound "Shared content not found", db,
        [.listFiles s.path, .getFileForDownload s.path])

/-- AccessShare from share_handler.go: gate phase then delivery phase. -/
def AccessShare (db : DB) (fs : FS) (method : Method) (token : String)
    (submitted : Option String) (now : Int) : AccessOutcome × DB × List FSCall :=
  match AccessGates db method token submitted now with
  | .error o => (o, db, [])
  | .ok s => Deliver db fs s

/-- Terminal outcome of CreateShare. -/
inductive CreateOutcome where
  | unauthorized
  | badRequest (msg : String)
  | notFoundPath
  | internalError
  | created (resp : ShareResponse)
deriving DecidableEq, Repr

/-- CreateShare from share_handler.go (lines 28-94): requires an
authenticated user; rejects an empty path; validates the path by trying
GetFileForDownload and, on failure, ListFiles (NotFound when both fail);
defaults shareType to public and permission to download; rejects a
password-type request with an empty password; builds the Share with the
submitted password stored verbatim in the Password field, Token left
empty, Downloads zero and IsActive true; calls the repository Create and
maps its error to an internal error; on success answers with
ToResponse(baseURL). -/
def CreateShare (db : DB) (fs : FS) (user : Option String)
    (req : CreateShareRequest) (freshId : String) (now : Int) (baseURL : String) :
    CreateOutcome × DB :=
  match user with
  | none => (.unauthorized, db)
  | some uid =>
    if req.path = "" then (.badRequest "Path is required", db)
    else if (fs req.path).isNone then (.notFoundPath, db)
    else
      let st := req.shareType.getD .public
      let pm := req.permission.getD .download
      if st = .password ∧ req.password = "" then
        (.badRequest "Password is required for password-protected shares", db)
      else
        let share : Share :=
          { id := ""
            token := ""
            path := req.path
            createdBy := uid
            shareType := st
            password := req.password
            permission := pm
            expiresAt := req.expiresAt
            maxDownloads := req.maxDownloads
            downloads := 0
            createdAt := 0
            isActive := true }
        match db.Create share freshId now with
        | .error _ => (.internalError, db)
        | .ok (db2, s2) => (.created (s2.ToResponse baseURL), db2)

/-- Terminal outcome of the owner-scoped handlers DeleteShare and
GetShareInfo. -/
inductive OwnerOutcome where
  | unauthorized
  | badRequest (msg : String)
  | notFound
  | forbidden
  | internalError
  | deleted
  | info (resp : ShareResponse)
deriving DecidableEq, Repr

/-- DeleteShare from share_handler.go (lines 125-167): requires an
authenticated user and a non-empty id; GetByID (NotFound when absent);
answers Forbidden when the requester is not the creator; otherwise
deletes (a repository failure surfacing as an internal error). -/
def DeleteShare (db : DB) (user : Option String) (shareID : String) :
    OwnerOutcome × DB :=
  match user with
  | none => (.unauthorized, db)
  | some uid =>
    if shareID = "" then (.badRequest "Share ID is required", db)
    else
      match db.GetByID shareID with
      | .error _ => (.notFound, db)
      | .ok s =>
        if s.createdBy ≠ uid then (.forbidden, db)
        else
          match db.Delete shareID with
          | .error _ => (.internalError, db)
          | .ok db2 => (.deleted, db2)

/-- GetShareInfo from share_handler.go (lines 270-307): requires an
authenticated user and a non-empty id; GetByID (NotFound when absent);
answers Forbidden when the requester is not the creator; otherwise
answers with ToResponse(baseURL). -/
def GetShareInfo (db : DB) (user : Option String) (shareID : String)
    (baseURL : String) : OwnerOutcome × DB :=
  match user with
  | none => (.unauthorized, db)
  | some uid =>
    if shareID = "" then (.badRequest "Share ID is required", db)
    else
      match db.GetByID shareID with
      | .error _ => (.notFound, db)
      | .ok s =>
        if s.createdBy ≠ uid then (.forbidden, db)
        else (.info (s.ToResponse baseURL), db)

/-! ### Auxiliary definitions for stating the claims -/

/-- Claim-side definition: the original filename component of a path, its
last slash-separated segment.  Used to compare the specified
Content-Disposition filename with the one the code produces. -/
def lastSegment (p : String) : String :=
  String.mk (p.data.foldl (fun acc c => if c = '/' then [] else acc ++ [c]) [])

/-- Sequential composition of delivery phases over a list of share
snapshots: the interleaving in which every concurrent request has already
passed the gate phase (the SELECT and checks) before any delivery phase
(the UPDATE) runs. -/
def DeliverMany (db : DB) (fs : FS) (snaps : List Share) :
    List AccessOutcome × DB :=
  match snaps with
  | [] => ([], db)
  | s :: rest =>
    let r := Deliver db fs s
    let rr := DeliverMany r.2.1 fs rest
    (r.1 :: rr.1, rr.2)

/-! ### Concrete fixtures -/

/-- A storage backend with a file at f, a file at d/r and a directory at d. -/
def fsFix : FS := fun p =>
  if p = "f" then some .file
  else if p = "d/r" then some .file
  else if p = "d" then some (.dir ["a.txt", "b.txt"])
  else none

/-- A public download share of the file f, capped at one download. -/
def shCap1 : Share :=
  { id := "i1", token := "t1", path := "f", createdBy := "alice",
    shareType := .public, password := "", permission := .download,
    expiresAt := none, maxDownloads := some 1, downloads := 0,
    createdAt := 0, isActive := true }

/-- A public view-only share of the file f. -/
def shView : Share :=
  { id := "i2", token := "t2", path := "f", createdBy := "alice",
    shareType := .public, password := "", permission := .view,
    expiresAt := none, maxDownloads := none, downloads := 0,
    createdAt := 0, isActive := true }

/-- A public download share of the directory d. -/
def shDir : Share :=
  { id := "i3", token := "t3", path := "d", createdBy := "alice",
    shareType := .public, password := "", permission := .download,
    expiresAt := none, maxDownloads := none, downloads := 0,
    createdAt := 0, isActive := true }

/-- A public download share of the nested file d/r. -/
def shNested : Share :=
  { id := "i4", token := "t4", path := "d/r", createdBy := "alice",
    shareType := .public, password := "", permission := .download,
    expiresAt := none, maxDownloads := none, downloads := 0,
    createdAt := 0, isActive := true }

/-- A revoked (inactive) public download share of the file f. -/
def shInactive : Share :=
  { id := "i6", token := "t6", path := "f", createdBy := "alice",
    shareType := .public, password := "", permission := .download,
    expiresAt := none, maxDownloads := none, downloads := 0,
    createdAt := 0, isActive := false }

/-- A password-protected download share of the file f. -/
def shPwd : Share :=
  { id := "i5", token := "t5", path := "f", createdBy := "alice",
    shareType := .password, password := "s3cr3t", permission := .download,
    expiresAt := none, maxDownloads := some 5, downloads := 0,
    createdAt := 0, isActive := true }

/-- A create request for the public file f with every optional field
omitted. -/
def reqPub : CreateShareRequest :=
  { path := "f", shareType := none, password := "",
    permission := none, expiresAt := none, maxDownloads := none }

/-- A create request for a password-protected download share of f. -/
def reqPwd : CreateShareRequest :=
  { path := "f", shareType := some .password, password := "s3cr3t",
    permission := some .download, expiresAt := none, maxDownloads := none }

/-- Token of a created-share response, when the outcome is created. -/
def createdToken : CreateOutcome → Option String
  | .created r => some r.token
  | _ => none

/-- Id of a created-share response, when the outcome is created. -/
def createdId : CreateOutcome → Option String
  | .created r => some r.id
  | _ => none

/-- Claim-side predicate: an access whose first collaborator call treats
the path as downloadable content. -/
def attemptsDownloadFirst (trace : List FSCall) (p : String) : Bool :=
  trace.head? == some (.getFileForDownload p)

/-! ### Lemmas on the store -/

theorem find?_map_increment (l : List Share) (id : String) :
    (l.map (fun r => if r.id = id then { r with downloads := r.downloads + 1 } else r)).find?
      (fun r => r.id = id) =
    (l.find? (fun r => r.id = id)).map (fun r => { r with downloads := r.downloads + 1 }) := by
  induction l with
  | nil => rfl
  | cons r l ih =>
    by_cases h : r.id = id
    · simp [h]
    · simp [h, ih]

theorem downloadsOf_incrementIgnoringError (db : DB) (id : String) :
    (db.incrementIgnoringError id).downloadsOf id
      = (db.downloadsOf id).map (fun d => d + 1) := by
  unfold DB.incrementIgnoringError DB.IncrementDownloads
  by_cases h : db.shares.any (fun r => r.id = id) = true
  · simp only [h, if_true, DB.downloadsOf, find?_map_increment, Option.map_map]
    rfl
  · have hf : db.shares.find? (fun r => r.id = id) = none := by
      rw [List.find?_eq_none]
      intro a ha
      simp only [Bool.not_eq_true]
      by_contra hc
      exact h (List.any_eq_true.mpr ⟨a, ha, by simpa using hc⟩)
    simp [h, DB.downloadsOf, hf]

theorem any_of_getByID_ok (db : DB) (id : String) (s : Share)
    (h : db.GetByID id = .ok s) : db.shares.any (fun r => r.id = id) = true := by
  unfold DB.GetByID at h
  cases hf : db.shares.find? (fun r => r.id = id) with
  | none => rw [hf] at h; cases h
  | some r =>
    have hm := List.mem_of_find?_eq_some hf
    have hp := @List.find?_some Share (fun r => decide (r.id = id)) r db.shares hf
    exact List.any_eq_true.mpr ⟨r, hm, by simpa using hp⟩

/-! ### Claim theorems -/

/-- C9: IsExpired is true exactly when expiresAt is set and the current
time is strictly after it; HasReachedMaxDownloads is true exactly when
maxDownloads is set and downloads has reached it; IsValid is the
conjunction of isActive with the negations of the other two; and each
predicate depends only on the fields appearing in its characterization. -/
theorem C9_validity_predicates (s s2 : Share) (now : Int) :
    (s.IsExpired now = true ↔ ∃ t, s.expiresAt = some t ∧ now > t) ∧
    (s.HasReachedMaxDownloads = true ↔
      ∃ m, s.maxDownloads = some m ∧ s.downloads ≥ m) ∧
    (s.IsValid now = true ↔
      s.isActive = true ∧ s.IsExpired now = false ∧
        s.HasReachedMaxDownloads = false) ∧
    (s.expiresAt = s2.expiresAt → s.IsExpired now = s2.IsExpired now) ∧
    (s.maxDownloads = s2.maxDownloads → s.downloads = s2.downloads →
      s.HasReachedMaxDownloads = s2.HasReachedMaxDownloads) := by
  refine ⟨?_, ?_, ?_, ?_, ?_⟩
  · cases h : s.expiresAt <;> simp [Share.IsExpired, h]
  · cases h : s.maxDownloads <;> simp [Share.HasReachedMaxDownloads, h]
  · simp [Share.IsValid, Bool.and_eq_true, Bool.not_eq_true', and_assoc]
  · intro h; simp [Share.IsExpired, h]
  · intro h1 h2; simp [Share.HasReachedMaxDownloads, h1, h2]

/-- Witness for C9: the IsValid characterization evaluated at a concrete
share. -/
theorem C9_validity_predicates_witness :
    shView.IsValid 0 = true ↔
      shView.isActive = true ∧ shView.IsExpired 0 = false ∧
        shView.HasReachedMaxDownloads = false :=
  (C9_validity_predicates shView shCap1 0).2.2.1

/-- C1: evidence against the claim.  The repository Create leaves the
token exactly as submitted, and the handler always submits an empty one:
the first create succeeds with token equal to the empty string, and a
second create then collides on the unique token column and surfaces an
internal error to the caller instead of retrying with a fresh token. -/
theorem C1_token_left_empty :
    createdToken (CreateShare ⟨[]⟩ fsFix (some "alice") reqPub "u1" 5 "b").1 =
      some "" ∧
    createdId (CreateShare ⟨[]⟩ fsFix (some "alice") reqPub "u1" 5 "b").1 =
      some "u1" ∧
    (CreateShare (CreateShare ⟨[]⟩ fsFix (some "alice") reqPub "u1" 5 "b").2 fsFix
        (some "bob") reqPub "u2" 6 "b").1 = .internalError := by decide

/-- C2: evidence against the claim.  Creating a password share persists
the submitted secret verbatim in the password column, and a credentialed
access succeeds or fails by plain string comparison of the submitted
secret with that stored value. -/
theorem C2_plaintext_password :
    ((CreateShare ⟨[]⟩ fsFix (some "alice") reqPwd "u1" 5 "b").2.shares.map
        (fun r => r.password)) = ["s3cr3t"] ∧
    (AccessShare ⟨[shPwd]⟩ fsFix .post "t5" (some "s3cr3t") 0).1 =
      .fileServed "f" ∧
    (AccessShare ⟨[shPwd]⟩ fsFix .post "t5" (some "wrong") 0).1 =
      .unauthorized "Invalid password" := by decide

set_option maxRecDepth 4000 in
/-- C4: evidence against the claim.  The gate phase and the increment are
separate store operations and the UPDATE is unconditional, so in the
interleaving where fifty concurrent requests against a share capped at
one download all pass the gate before any delivery runs, all fifty serve
the file and the counter ends at fifty; and the increment succeeds even
on a row already at its cap. -/
theorem C4_unconditional_increment_race :
    AccessGates ⟨[shCap1]⟩ .get "t1" none 0 = .ok shCap1 ∧
    (DeliverMany ⟨[shCap1]⟩ fsFix (List.replicate 50 shCap1)).1 =
      List.replicate 50 (AccessOutcome.fileServed "f") ∧
    (DeliverMany ⟨[shCap1]⟩ fsFix (List.replicate 50 shCap1)).2.downloadsOf "i1" =
      some 50 ∧
    DB.IncrementDownloads ⟨[{ shCap1 with downloads := 1 }]⟩ "i1" =
      .ok ⟨[{ shCap1 with downloads := 2 }]⟩ := by decide

/-- C3 counterexample: an access to a view-permission share of a file
passes every gate, delivers no content — the response is the listing
payload with a nil file list — and still increments the downloads counter
from zero to one. -/
theorem C3_counterexample :
    (AccessShare ⟨[shView]⟩ fsFix .get "t2" none 0).1 =
      .listing "f" .view none ∧
    (⟨[shView]⟩ : DB).downloadsOf "i2" = some 0 ∧
    (AccessShare ⟨[shView]⟩ fsFix .get "t2" none 0).2.1.downloadsOf "i2" =
      some 1 := by decide

/-- C8 counterexample: for a directory share the handler's only
collaborator call is the listing one — the path is never first attempted
as downloadable content. -/
theorem C8_counterexample :
    (AccessShare ⟨[shDir]⟩ fsFix .get "t3" none 0).1 =
      .listing "d" .download (some ["a.txt", "b.txt"]) ∧
    (AccessShare ⟨[shDir]⟩ fsFix .get "t3" none 0).2.2 = [.listFiles "d"] ∧
    attemptsDownloadFirst
      (AccessShare ⟨[shDir]⟩ fsFix .get "t3" none 0).2.2 "d" = false := by decide

/-- C10 counterexample: serving the nested file d/r puts the whole
relative path in the Content-Disposition filename, not its last
segment r. -/
theorem C10_counterexample :
    (AccessShare ⟨[shNested]⟩ fsFix .get "t4" none 0).1 = .fileServed "d/r" ∧
    lastSegment "d/r" = "r" ∧
    (("d/r" : String) == "r") = false := by decide

/-- C5: an unknown token is a terminal NotFound; for a share found by a
non-empty token, the liveness gates run in the fixed order inactive,
expired, max-downloads-reached, each a terminal Gone that leaves the
store untouched, and the three Gone messages are pairwise distinct so
callers can tell the reasons apart.  The three guard conditions are
mutually exclusive by construction. -/
theorem C5_liveness_order (db : DB) (fs : FS) (m : Method) (t : String)
    (pw : Option String) (now : Int) (s : Share) (ht : t ≠ "") :
    (db.GetByToken t = .error .notFound →
      AccessShare db fs m t pw now = (.notFound "Share not found", db, [])) ∧
    (db.GetByToken t = .ok s →
      ((s.isActive = false →
         AccessShare db fs m t pw now =
           (.gone "Share is no longer active", db, [])) ∧
       (s.isActive = true → s.IsExpired now = true →
         AccessShare db fs m t pw now = (.gone "Share has expired", db, [])) ∧
       (s.isActive = true → s.IsExpired now = false →
          s.HasReachedMaxDownloads = true →
         AccessShare db fs m t pw now =
           (.gone "Maximum downloads reached", db, [])))) ∧
    (("Share is no longer active" : String) ≠ "Share has expired" ∧
     ("Share is no longer active" : String) ≠ "Maximum downloads reached" ∧
     ("Share has expired" : String) ≠ "Maximum downloads reached") := by
  refine ⟨?_, ?_, by decide⟩
  · intro h
    simp [AccessShare, AccessGates, ht, h]
  · intro h
    refine ⟨?_, ?_, ?_⟩
    · intro ha
      simp [AccessShare, AccessGates, ht, h, ha]
    · intro ha he
      simp [AccessShare, AccessGates, ht, h, ha, he]
    · intro ha he hm2
      simp [AccessShare, AccessGates, ht, h, ha, he, hm2]

/-- Witness for C5: a revoked share answers Gone with the inactive
message. -/
theorem C5_liveness_order_witness :
    AccessShare ⟨[shInactive]⟩ fsFix .get "t6" none 0 =
      (.gone "Share is no longer active", ⟨[shInactive]⟩, []) :=
  ((C5_liveness_order ⟨[shInactive]⟩ fsFix .get "t6" none 0 shInactive
      (by decide)).2.1 (by decide)).1 (by decide)

/-- C6: a credentialed access to a password share whose submitted secret
differs from the stored one is a terminal Unauthorized that leaves the
store — in particular the downloads counter — unchanged. -/
theorem C6_wrong_password_unchanged (db : DB) (fs : FS) (t p : String)
    (now : Int) (s : Share) (ht : t ≠ "") (hs : db.GetByToken t = .ok s)
    (ha : s.isActive = true) (he : s.IsExpired now = false)
    (hm : s.HasReachedMaxDownloads = false) (hty : s.shareType = .password)
    (hp : p ≠ s.password) :
    AccessShare db fs .post t (some p) now =
      (.unauthorized "Invalid password", db, []) ∧
    (AccessShare db fs .post t (some p) now).2.1.downloadsOf s.id =
      db.downloadsOf s.id := by
  have h1 : AccessShare db fs .post t (some p) now =
      (.unauthorized "Invalid password", db, []) := by
    simp [AccessShare, AccessGates, ht, hs, ha, he, hm, hty, hp]
  exact ⟨h1, by rw [h1]⟩

/-- Witness for C6: wrong password against the concrete password share. -/
theorem C6_wrong_password_unchanged_witness :
    AccessShare ⟨[shPwd]⟩ fsFix .post "t5" (some "wrong") 0 =
      (.unauthorized "Invalid password", ⟨[shPwd]⟩, []) ∧
    (AccessShare ⟨[shPwd]⟩ fsFix .post "t5" (some "wrong") 0).2.1.downloadsOf
        shPwd.id = (⟨[shPwd]⟩ : DB).downloadsOf shPwd.id :=
  C6_wrong_password_unchanged ⟨[shPwd]⟩ fsFix "t5" "wrong" 0 shPwd
    (by decide) (by decide) (by decide) (by decide) (by decide) (by decide)
    (by decide)

/-- C7: both owner-scoped single-share operations — DeleteShare and
GetShareInfo — proceed exactly when the authenticated requester equals
the share's creator; any other authenticated user receives Forbidden and
the store is unchanged. -/
theorem C7_owner_scoped (db : DB) (u id baseURL : String) (s : Share)
    (hid : id ≠ "") (hs : db.GetByID id = .ok s) :
    (s.createdBy ≠ u →
       DeleteShare db (some u) id = (.forbidden, db) ∧
       GetShareInfo db (some u) id baseURL = (.forbidden, db)) ∧
    (s.createdBy = u →
       DeleteShare db (some u) id =
         (.deleted, ⟨db.shares.filter (fun r => r.id ≠ id)⟩) ∧
       GetShareInfo db (some u) id baseURL =
         (.info (s.ToResponse baseURL), db)) := by
  constructor
  · intro hne
    constructor
    · simp [DeleteShare, hid, hs, hne]
    · simp [GetShareInfo, hid, hs, hne]
  · intro heq
    have hany := any_of_getByID_ok db id s hs
    constructor
    · simp [DeleteShare, hid, hs, heq, DB.Delete, hany]
    · simp [GetShareInfo, hid, hs, heq]

/-- Witness for C7: a different authenticated user is refused both
operations on a share owned by alice. -/
theorem C7_owner_scoped_witness :
    DeleteShare ⟨[shCap1]⟩ (some "bob") "i1" = (.forbidden, ⟨[shCap1]⟩) ∧
    GetShareInfo ⟨[shCap1]⟩ (some "bob") "i1" "b" = (.forbidden, ⟨[shCap1]⟩) :=
  (C7_owner_scoped ⟨[shCap1]⟩ "bob" "i1" "b" shCap1 (by decide)
    (by decide)).1 (by decide)

theorem Create_ok_fields (db : DB) (s : Share) (fid : String) (now : Int)
    (db2 : DB) (s2 : Share) (h : db.Create s fid now = .ok (db2, s2)) :
    s2.downloads = s.downloads ∧ s2.token = s.token := by
  simp only [DB.Create] at h
  by_cases hid : s.id = ""
  · rw [if_pos hid] at h
    split at h
    · cases h
    · obtain ⟨h1, h2⟩ := Prod.ext_iff.mp (Except.ok.inj h)
      subst h2
      exact ⟨rfl, rfl⟩
  · rw [if_neg hid] at h
    split at h
    · cases h
    · obtain ⟨h1, h2⟩ := Prod.ext_iff.mp (Except.ok.inj h)
      subst h2
      exact ⟨rfl, rfl⟩

theorem CreateShare_downloads_zero (db : DB) (fs : FS) (uid : String)
    (req : CreateShareRequest) (fid : String) (now : Int) (bu : String)
    (resp : ShareResponse) (db2 : DB)
    (h : CreateShare db fs (some uid) req fid now bu = (.created resp, db2)) :
    resp.downloads = 0 := by
  simp only [CreateShare] at h
  split at h
  · simp at h
  · split at h
    · simp at h
    · split at h
      · simp at h
      · split at h
        · simp at h
        · rename_i db3 s2 heq
          obtain ⟨hl, hr⟩ := Prod.ext_iff.mp h
          injection hl with hresp
          subst hresp
          have hd := (Create_ok_fields db _ fid now db3 s2 heq).1
          simpa [Share.ToResponse] using hd

/-- C3 amended: the counter starts at zero — every share persisted by
CreateShare reports zero downloads — the store's only counter mutation
adds exactly one, directory listings never touch it, and an access whose
gates pass and whose target is a file increments it exactly once, whether
or not any bytes are delivered (view permission included). -/
theorem C3_increment_per_file_access (db : DB) (fs : FS) (m : Method)
    (t : String) (pw : Option String) (now : Int) (s : Share)
    (req : CreateShareRequest) (uid fid bu rid : String) :
    (∀ resp db2, CreateShare db fs (some uid) req fid now bu =
        (.created resp, db2) → resp.downloads = 0) ∧
    ((db.incrementIgnoringError rid).downloadsOf rid =
      (db.downloadsOf rid).map (fun d => d + 1)) ∧
    (AccessGates db m t pw now = .ok s → fs s.path = some .file →
      (AccessShare db fs m t pw now).2.1.downloadsOf s.id =
        (db.downloadsOf s.id).map (fun d => d + 1)) ∧
    (AccessGates db m t pw now = .ok s →
      ∀ es, fs s.path = some (.dir es) →
        (AccessShare db fs m t pw now).2.1 = db) := by
  refine ⟨?_, downloadsOf_incrementIgnoringError db rid, ?_, ?_⟩
  · intro resp db2 h
    exact CreateShare_downloads_zero db fs uid req fid now bu resp db2 h
  · intro hg hf
    by_cases hperm : s.permission = .download <;>
      simp [AccessShare, hg, Deliver, hf, hperm,
        downloadsOf_incrementIgnoringError]
  · intro hg es hd
    simp [AccessShare, hg, Deliver, hd]

/-- Witness for C3 at the concrete view share: an access that delivers no
bytes still adds exactly one to the counter. -/
theorem C3_increment_per_file_access_witness :
    (AccessShare ⟨[shView]⟩ fsFix .get "t2" none 0).2.1.downloadsOf shView.id =
      ((⟨[shView]⟩ : DB).downloadsOf shView.id).map (fun d => d + 1) :=
  (C3_increment_per_file_access ⟨[shView]⟩ fsFix .get "t2" none 0 shView
    reqPub "alice" "u1" "b" "i2").2.2.1 (by decide) (by decide)

/-- C8 amended: for every access that passes the gates, resolution calls
the listing operation first; only when the path is not a directory does a
download-path call follow; a directory is answered with its listing and is
never content-served, and a path that is neither yields NotFound. -/
theorem C8_list_first_resolution (db : DB) (fs : FS) (m : Method)
    (t : String) (pw : Option String) (now : Int) (s : Share)
    (hg : AccessGates db m t pw now = .ok s) :
    (AccessShare db fs m t pw now).2.2.head? = some (.listFiles s.path) ∧
    (∀ es, fs s.path = some (.dir es) →
      (AccessShare db fs m t pw now).2.2 = [.listFiles s.path] ∧
      (AccessShare db fs m t pw now).1 =
        .listing s.path s.permission (some es)) ∧
    (fs s.path = some .file →
      (AccessShare db fs m t pw now).2.2 =
        [.listFiles s.path, .getFileForDownload s.path]) ∧
    (fs s.path = none →
      (AccessShare db fs m t pw now).2.2 =
        [.listFiles s.path, .getFileForDownload s.path] ∧
      (AccessShare db fs m t pw now).1 =
        .notFound "Shared content not found") := by
  refine ⟨?_, ?_, ?_, ?_⟩
  · cases hfs : fs s.path with
    | none => simp [AccessShare, hg, Deliver, hfs]
    | some node =>
      cases node with
      | file =>
        by_cases hperm : s.permission = .download <;>
          simp [AccessShare, hg, Deliver, hfs, hperm]
      | dir es => simp [AccessShare, hg, Deliver, hfs]
  · intro es hd
    simp [AccessShare, hg, Deliver, hd]
  · intro hf
    by_cases hperm : s.permission = .download <;>
      simp [AccessShare, hg, Deliver, hf, hperm]
  · intro hn
    simp [AccessShare, hg, Deliver, hn]

/-- Witness for C8 at the concrete directory share. -/
theorem C8_list_first_resolution_witness :
    (AccessShare ⟨[shDir]⟩ fsFix .get "t3" none 0).2.2.head? =
      some (.listFiles shDir.path) :=
  (C8_list_first_resolution ⟨[shDir]⟩ fsFix .get "t3" none 0 shDir
    (by decide)).1

/-- C10 amended: a gated single-file delivery under download permission
streams with a Content-Disposition filename equal to the share's whole
path stripped of one leading slash (not merely its last segment), and the
store returned with the streamed response already carries the downloads
increment — the increment happens before the bytes go out. -/
theorem C10_disposition_full_path (db : DB) (fs : FS) (m : Method)
    (t : String) (pw : Option String) (now : Int) (s : Share)
    (hg : AccessGates db m t pw now = .ok s)
    (hf : fs s.path = some .file) (hperm : s.permission = .download) :
    (AccessShare db fs m t pw now).1 = .fileServed (trimLeadingSlash s.path) ∧
    (AccessShare db fs m t pw now).2.1.downloadsOf s.id =
      (db.downloadsOf s.id).map (fun d => d + 1) := by
  constructor
  · simp [AccessShare, hg, Deliver, hf, hperm]
  · simp [AccessShare, hg, Deliver, hf, hperm,
      downloadsOf_incrementIgnoringError]

/-- Witness for C10 at the concrete nested-file share. -/
theorem C10_disposition_full_path_witness :
    (AccessShare ⟨[shNested]⟩ fsFix .get "t4" none 0).1 =
      .fileServed (trimLeadingSlash shNested.path) ∧
    (AccessShare ⟨[shNested]⟩ fsFix .get "t4" none 0).2.1.downloadsOf
        shNested.id =
      ((⟨[shNested]⟩ : DB).downloadsOf shNested.id).map (fun d => d + 1) :=
  C10_disposition_full_path ⟨[shNested]⟩ fsFix .get "t4" none 0 shNested
    (by decide) (by decide) (by decide)

end GoManager
